import Mathlib

/-!
Verification of the LSL stream receiver core (lsl_receiver/core.py and
lsl_receiver/quality_assessor.py), as a shallow embedding in Lean 4.

External effects (the pylsl inlet, wall-clock time) are passed in as
explicit environment inputs; machine floats are modelled as rationals,
timestamps as integers. The embedding follows the Python source line by
line; each definition carries the name of the Python attribute or method
it embeds. Definitions come first, then the theorems about them.
-/

set_option maxHeartbeats 1000000

/-- Python list slice `l[-n:]`. For n greater or equal to 1 this is the last
n elements (the whole list when n exceeds the length); for n = 0 the slice
`l[-0:]` is `l[0:]`, the whole list. -/
def pySliceLastN {α : Type} (l : List α) (n : Nat) : List α :=
  if n = 0 then l else l.drop (l.length - n)

/-- The last n elements of a list (the whole list when n exceeds the length). -/
def lastN {α : Type} (n : Nat) (l : List α) : List α :=
  l.drop (l.length - n)

/-- One timed observation, the sample dict built in
StreamReceiver.pull_samples. -/
structure Sample where
  timestamp : Int
  lsl_timestamp : Int
  stream_name : String
  stream_type : String
  sampling_rate : ℚ
  values : List Int
  sample_index : Nat
deriving DecidableEq, Repr

/-- Static stream identity copied out of the pylsl StreamInfo at
construction time (stream_name, stream_type, sampling_rate,
channel_count attributes of StreamReceiver). -/
structure StreamMeta where
  stream_name : String
  stream_type : String
  sampling_rate : ℚ
  channel_count : Nat
deriving DecidableEq, Repr

/-- Mutable per-source state of a StreamReceiver. hasInlet models whether
self.inlet is non-None. -/
structure ReceiverState where
  connected : Bool
  hasInlet : Bool
  auto_reconnect : Bool
  last_sample_time : Int
  samples_received : Nat
  connection_errors : Nat
  data_buffer : List Sample
deriving DecidableEq, Repr

/-- self._max_buffer_size = 1000. -/
def maxBufferSize : Nat := 1000

/-- Outcome the environment supplies for one inlet.pull_chunk call: either
the transport raises, or it returns a pair of lists (samples, timestamps). -/
inductive PullEnv where
  | fail
  | chunk (samples : List (List Int)) (timestamps : List Int)
deriving DecidableEq, Repr

namespace StreamReceiver

/-- StreamReceiver.connect. The environment input ok says whether the
StreamInlet constructor succeeds or raises. The function is total: a
failure is recorded in state and returned as false, never raised. -/
def connect (s : ReceiverState) (ok : Bool) : Bool × ReceiverState :=
  if ok then
    (true, { s with hasInlet := true, connected := true, connection_errors := 0 })
  else
    (false, { s with connected := false, connection_errors := s.connection_errors + 1 })

/-- The sample dicts built by the for-loop of pull_samples: pair i of the
zipped (samples, timestamps) gets sample_index base + i + 1, where base is
samples_received before the loop. -/
def mkSamples (meta : StreamMeta) (now : Int) (base : Nat)
    (pairs : List (List Int × Int)) : List Sample :=
  pairs.enum.map fun q =>
    { timestamp := now
      lsl_timestamp := q.2.2
      stream_name := meta.stream_name
      stream_type := meta.stream_type
      sampling_rate := meta.sampling_rate
      values := q.2.1
      sample_index := base + q.1 + 1 }

/-- StreamReceiver.pull_samples. connectOk is the environment input used if
a reconnect is attempted; env is the environment input for pull_chunk; now
is time.time(). Returns the batch handed back to the caller and the new
state. Note the disconnected branch returns an empty list even when the
reconnect succeeds. -/
def pull_samples (meta : StreamMeta) (s : ReceiverState) (connectOk : Bool)
    (env : PullEnv) (now : Int) : List Sample × ReceiverState :=
  if !s.connected || !s.hasInlet then
    if s.auto_reconnect ∧ s.connection_errors < 5 then
      ([], (connect s connectOk).2)
    else
      ([], s)
  else
    match env with
    | .fail => ([], { s with connected := false,
                             connection_errors := s.connection_errors + 1 })
    | .chunk samples timestamps =>
      if samples.isEmpty then
        ([], s)
      else
        let pairs := samples.zip timestamps
        let sample_data := mkSamples meta now s.samples_received pairs
        let s1 : ReceiverState :=
          { s with samples_received := s.samples_received + pairs.length
                   last_sample_time :=
                     if pairs.isEmpty then s.last_sample_time else now }
        let buf := s1.data_buffer ++ sample_data
        let buf := if maxBufferSize < buf.length then lastN maxBufferSize buf else buf
        (sample_data, { s1 with data_buffer := buf })

/-- StreamReceiver.get_latest_data. -/
def get_latest_data (s : ReceiverState) (n_samples : Nat) : List Sample :=
  if s.data_buffer.isEmpty then [] else pySliceLastN s.data_buffer n_samples

/-- The state of a freshly constructed StreamReceiver: zeroed counters and
an empty buffer, after the connect() call made by the constructor (whose
outcome is the environment input ok). -/
def initReceiver (auto ok : Bool) : ReceiverState :=
  (connect
    { connected := false, hasInlet := false, auto_reconnect := auto,
      last_sample_time := 0, samples_received := 0, connection_errors := 0,
      data_buffer := [] } ok).2

/-- Run a sequence of pull_samples calls; each element of envs carries the
reconnect outcome, the pull_chunk outcome and the current time of one call. -/
def runPulls (meta : StreamMeta) (s : ReceiverState) :
    List (Bool × PullEnv × Int) → ReceiverState
  | [] => s
  | e :: es => runPulls meta (pull_samples meta s e.1 e.2.1 e.2.2).2 es

/-- The concatenation, in receipt order, of the batches returned by a
sequence of pull_samples calls. -/
def pulledSamples (meta : StreamMeta) (s : ReceiverState) :
    List (Bool × PullEnv × Int) → List Sample
  | [] => []
  | e :: es =>
      (pull_samples meta s e.1 e.2.1 e.2.2).1 ++
        pulledSamples meta (pull_samples meta s e.1 e.2.1 e.2.2).2 es

end StreamReceiver

namespace StreamManager

/-- Mutable state of a StreamManager. workers_spawned is a ghost counter of
how many times a receiver thread has been started; data_logger and
quality_assessor record whether the respective sink is configured. -/
structure ManagerState where
  running : Bool
  streams : List (String × ReceiverState)
  data_logger : Bool
  quality_assessor : Bool
  workers_spawned : Nat
  latest_data : List (String × List Sample)
deriving DecidableEq, Repr

/-- StreamManager.start_receiving. discovered is the environment input
standing for the streams that discover_streams plus connect_to_streams
would add when self.streams is empty (empty when nothing connects). -/
def start_receiving (m : ManagerState) (discovered : List (String × ReceiverState))
    (hasLogger hasAssessor : Bool) : Bool × ManagerState :=
  if m.running then
    (true, m)
  else
    let m1 := { m with data_logger := hasLogger, quality_assessor := hasAssessor }
    let m2 := if m1.streams.isEmpty then { m1 with streams := discovered } else m1
    if m2.streams.isEmpty then
      (false, m2)
    else
      (true, { m2 with running := true, workers_spawned := m2.workers_spawned + 1 })

/-- StreamReceiver.disconnect as called from stop_receiving: best-effort
close, always marks disconnected. -/
def disconnectReceiver (s : ReceiverState) : ReceiverState :=
  { s with connected := false }

/-- StreamManager.stop_receiving: a no-op when not running; otherwise
clears the running flag, joins the worker, and disconnects every stream. -/
def stop_receiving (m : ManagerState) : ManagerState :=
  if !m.running then
    m
  else
    { m with running := false,
             streams := m.streams.map fun p => (p.1, disconnectReceiver p.2) }

/-- StreamManager.get_latest_data. With a stream_name it returns a one-key
dict, slicing the entry when the name is present and giving [] otherwise;
without a name it slices every entry. -/
def get_latest_data (latest : List (String × List Sample))
    (stream_name : Option String) (n_samples : Nat) :
    List (String × List Sample) :=
  match stream_name with
  | some nm =>
      [(nm, match latest.lookup nm with
            | some d => pySliceLastN d n_samples
            | none => [])]
  | none => latest.map fun p => (p.1, pySliceLastN p.2 n_samples)

end StreamManager

/-- Health classification of one stream ('good' / 'warning' / 'critical'). -/
inductive Status where
  | good
  | warning
  | critical
deriving DecidableEq, Repr

/-- The entries appended to a single-stream assessment's issues list,
abstracting the Python f-strings. -/
inductive Issue where
  | notConnected
  | rateDeviation (dev : ℚ)
  | connectionErrors (n : Nat)
  | noRecentSamples (age : Option ℚ)
  | staleData (age : Option ℚ)
deriving DecidableEq, Repr

/-- The entries appended to the report's issues list. -/
inductive ReportIssue where
  | criticalIssue (stream : String) (issues : List Issue)
  | warningIssue (stream : String) (issues : List Issue)
deriving DecidableEq, Repr

/-- The per-source health snapshot handed to the quality assessor
(StreamReceiver.get_stream_info fields the assessor reads). -/
structure HealthInfo where
  connected : Bool
  sampling_rate : ℚ
  samples_received : Nat
  last_sample_time : ℚ
  connection_errors : Nat
deriving DecidableEq, Repr

/-- The metrics dict of a single-stream assessment; fields are none when
the corresponding key is never written. time_since_last_sample holds none
for the float infinity used when no sample was ever received. -/
structure Metrics where
  sampling_rate_deviation : Option ℚ := none
  expected_samples : Option ℚ := none
  actual_samples : Option Nat := none
  time_since_last_sample : Option (Option ℚ) := none
  connection_errors : Option Nat := none
deriving DecidableEq, Repr

/-- The assessment dict produced for one stream. -/
structure Assessment where
  status : Status
  score : ℚ
  issues : List Issue
  metrics : Metrics
deriving DecidableEq, Repr

/-- QualityAssessor configuration (check_interval,
sampling_rate_tolerance). -/
structure QAConfig where
  check_interval : ℚ
  sampling_rate_tolerance : ℚ
deriving DecidableEq, Repr

/-- The quality report returned by assess_quality. overall_score is none
when the key is absent (zero streams). -/
structure Report where
  timestamp : ℚ
  streams : List (String × Assessment)
  overall_quality : Status
  issues : List ReportIssue
  overall_score : Option ℚ
deriving DecidableEq, Repr

namespace QualityAssessor

/-- Greater-than against a possibly infinite staleness age (none stands
for float infinity, which exceeds every bound). -/
def ageGT (age : Option ℚ) (bound : ℚ) : Prop :=
  match age with
  | none => True
  | some q => bound < q

instance (age : Option ℚ) (bound : ℚ) : Decidable (ageGT age bound) := by
  unfold ageGT
  cases age <;> infer_instance

/-- QualityAssessor._assess_single_stream, floats modelled as rationals.
The disconnected check returns before any arithmetic. -/
def assess_single_stream (cfg : QAConfig) (info : HealthInfo) (now : ℚ) :
    Assessment :=
  if !info.connected then
    { status := .critical, score := 0, issues := [.notConnected], metrics := {} }
  else
    let a0 : Assessment := { status := .good, score := 1, issues := [], metrics := {} }
    -- Check sampling rate
    let a1 :=
      if 0 < info.sampling_rate then
        let expected_samples := info.sampling_rate * cfg.check_interval
        let rate_deviation :=
          |info.sampling_rate - (info.samples_received : ℚ) / cfg.check_interval| /
            info.sampling_rate
        let a :=
          if cfg.sampling_rate_tolerance < rate_deviation then
            { a0 with
                status := if rate_deviation < 1/2 then Status.warning else Status.critical
                issues := a0.issues ++ [.rateDeviation rate_deviation]
                score := a0.score * (1 - rate_deviation) }
          else a0
        { a with metrics :=
            { a.metrics with
                sampling_rate_deviation := some rate_deviation
                expected_samples := some expected_samples
                actual_samples := some info.samples_received } }
      else a0
    -- Check for connection errors
    let a2 :=
      if 0 < info.connection_errors then
        { a1 with
            issues := a1.issues ++ [.connectionErrors info.connection_errors]
            score := a1.score * max (1/2) (1 - (info.connection_errors : ℚ) * (1/5)) }
      else a1
    -- Check data staleness
    let time_since : Option ℚ :=
      if 0 < info.last_sample_time then some (now - info.last_sample_time) else none
    let a3 :=
      if ageGT time_since (cfg.check_interval * 2) then
        { a2 with
            status := .critical
            issues := a2.issues ++ [.noRecentSamples time_since]
            score := a2.score * (1/10) }
      else if ageGT time_since cfg.check_interval then
        { a2 with
            status := .warning
            issues := a2.issues ++ [.staleData time_since]
            score := a2.score * (7/10) }
      else a2
    let a4 :=
      { a3 with metrics :=
          { a3.metrics with
              time_since_last_sample := some time_since
              connection_errors := some info.connection_errors } }
    -- Ensure score is between 0 and 1
    { a4 with score := max 0 (min 1 a4.score) }

/-- One iteration of the aggregation loop of assess_quality: accumulator is
(report, overall_score, stream_count). -/
def assessStep (cfg : QAConfig) (now : ℚ) (acc : Report × ℚ × Nat)
    (p : String × HealthInfo) : Report × ℚ × Nat :=
  let q := assess_single_stream cfg p.2 now
  let r := acc.1
  let r := { r with streams := r.streams ++ [(p.1, q)] }
  let r :=
    if q.status = Status.critical then
      { r with overall_quality := .critical
               issues := r.issues ++ [.criticalIssue p.1 q.issues] }
    else if q.status = Status.warning then
      { r with overall_quality :=
                 if r.overall_quality ≠ Status.critical then .warning
                 else r.overall_quality
               issues := r.issues ++ [.warningIssue p.1 q.issues] }
    else r
  (r, acc.2.1 + q.score, acc.2.2 + 1)

/-- QualityAssessor.assess_quality over a snapshot given as an association
list (Python dict iteration order is insertion order). -/
def assess_quality (cfg : QAConfig) (stream_infos : List (String × HealthInfo))
    (now : ℚ) : Report :=
  let r0 : Report :=
    { timestamp := now, streams := [], overall_quality := .good,
      issues := [], overall_score := none }
  let acc := stream_infos.foldl (assessStep cfg now) (r0, 0, 0)
  if 0 < acc.2.2 then
    { acc.1 with overall_score := some (acc.2.1 / (acc.2.2 : ℚ)) }
  else
    acc.1

end QualityAssessor

/-- The worst of a list of statuses, as the spec words it: critical if any
critical, else warning if any warning, else good. -/
def worstStatus (l : List Status) : Status :=
  if Status.critical ∈ l then .critical
  else if Status.warning ∈ l then .warning
  else .good

/-- How one stream's status updates the running overall status inside the
aggregation loop. -/
def statusJoin (acc s : Status) : Status :=
  match s with
  | .critical => .critical
  | .warning => if acc = Status.critical then .critical else .warning
  | .good => acc

namespace AggregateBuffer

/-!
Interleaving model of one entry of StreamManager.latest_data, contended
between the ingestion worker of _receive_loop and reader threads calling
get_latest_data. The writer body under `with self._data_lock` is split into
its micro-steps (extend, then the conditional trim); the lock is held from
acquire to release, and a reader runs only while the lock is free, exactly
as threading.Lock provides. applied is a ghost log of the batches whose
critical section has completed.
-/

/-- Position of the ingestion worker inside or outside its critical
section. -/
inductive WPhase where
  | idle
  | acquired
  | extended
  | trimmed
deriving DecidableEq, Repr

/-- The shared buffer together with the phase of the writer, the batch the
writer is currently appending, and the ghost log of completed batches. -/
structure BufSys where
  buffer : List Sample
  phase : WPhase
  pending : List Sample
  applied : List (List Sample)
deriving DecidableEq, Repr

/-- The effect of one whole critical section of _receive_loop: extend with
the batch, then trim to the last 1000 when the length exceeds 1000. -/
def applyBatch (buf batch : List Sample) : List Sample :=
  let b := buf ++ batch
  if maxBufferSize < b.length then lastN maxBufferSize b else b

/-- Interleaved micro-steps of the ingestion worker. acquire takes the
lock for a non-deterministically chosen batch; extend and trim are the two
statements of the locked block; release gives the lock back and commits the
batch to the ghost log. -/
inductive BStep : BufSys → BufSys → Prop
  | acquire (s : BufSys) (batch : List Sample) (h : s.phase = .idle) :
      BStep s { s with phase := .acquired, pending := batch }
  | extend (s : BufSys) (h : s.phase = .acquired) :
      BStep s { s with phase := .extended, buffer := s.buffer ++ s.pending }
  | trim (s : BufSys) (h : s.phase = .extended) :
      BStep s { s with phase := .trimmed,
                       buffer := if maxBufferSize < s.buffer.length then
                                   lastN maxBufferSize s.buffer
                                 else s.buffer }
  | release (s : BufSys) (h : s.phase = .trimmed) :
      BStep s { s with phase := .idle, pending := [],
                       applied := s.applied ++ [s.pending] }

/-- The initial system: empty buffer, lock free, nothing applied. -/
def initSys : BufSys :=
  { buffer := [], phase := .idle, pending := [], applied := [] }

/-- States reachable by any interleaving of writer micro-steps. -/
inductive Reach : BufSys → Prop
  | init : Reach initSys
  | step {s t : BufSys} : Reach s → BStep s t → Reach t

/-- A reader call to get_latest_data: it must take the lock, so it can run
only while the writer is outside its critical section, and it returns the
slice by value (a fresh list), never the live buffer. -/
def readerObserve (s : BufSys) (n : Nat) : Option (List Sample) :=
  if s.phase = WPhase.idle then some (pySliceLastN s.buffer n) else none

/-- The invariant tying the live buffer to the ghost log in every phase. -/
def bufInv (s : BufSys) : Prop :=
  match s.phase with
  | .idle => s.buffer = s.applied.foldl applyBatch []
  | .acquired => s.buffer = s.applied.foldl applyBatch []
  | .extended => s.buffer = s.applied.foldl applyBatch [] ++ s.pending
  | .trimmed => s.buffer = applyBatch (s.applied.foldl applyBatch []) s.pending

end AggregateBuffer

/-- Stream identity used by the concrete witness runs. -/
def meta0 : StreamMeta :=
  { stream_name := "EEG", stream_type := "eeg", sampling_rate := 250,
    channel_count := 0 }

/-- A single pull_samples environment delivering 1001 samples at once. -/
def bigEnvs : List (Bool × PullEnv × Int) :=
  [(true, PullEnv.chunk (List.replicate 1001 []) (List.replicate 1001 0), 0)]

/-- A disconnected receiver with auto_reconnect on and a clean error
counter, as left behind by a failed constructor-time connect after the
counter is compared against the threshold. -/
def discReceiver : ReceiverState :=
  { connected := false, hasInlet := false, auto_reconnect := true,
    last_sample_time := 0, samples_received := 0, connection_errors := 0,
    data_buffer := [] }

/-- A connected receiver holding two buffered samples, for the read-path
witnesses. -/
def demoSample (i : Nat) : Sample :=
  { timestamp := Int.ofNat i, lsl_timestamp := Int.ofNat i, stream_name := "EEG",
    stream_type := "eeg", sampling_rate := 250, values := [1], sample_index := i }

/-- A receiver state with two samples buffered. -/
def demoReceiver : ReceiverState :=
  { connected := true, hasInlet := true, auto_reconnect := true,
    last_sample_time := 2, samples_received := 2, connection_errors := 0,
    data_buffer := [demoSample 1, demoSample 2] }

/-- A manager that is idle but already holds one connected stream. -/
def demoManager : StreamManager.ManagerState :=
  { running := false, streams := [("EEG", demoReceiver)], data_logger := false,
    quality_assessor := false, workers_spawned := 0, latest_data := [] }

/-- A healthy snapshot for one stream. -/
def healthyInfo : HealthInfo :=
  { connected := true, sampling_rate := 0, samples_received := 10,
    last_sample_time := 95, connection_errors := 0 }

/-- A snapshot of a disconnected stream whose other fields all look alive,
to show they are ignored. -/
def deadInfo : HealthInfo :=
  { connected := false, sampling_rate := 250, samples_received := 10000,
    last_sample_time := 99, connection_errors := 0 }

/-- The default QualityAssessor configuration (check_interval 30,
tolerance 0.1). -/
def cfg0 : QAConfig :=
  { check_interval := 30, sampling_rate_tolerance := 1/10 }

/-- The aggregate-buffer system after one complete writer critical section
appending the batch [demoSample 1]. -/
def sysAfterOne : AggregateBuffer.BufSys :=
  { buffer := [demoSample 1], phase := .idle, pending := [],
    applied := [[demoSample 1]] }

/-! ### Helper lemmas -/

theorem pySliceLastN_pos {α : Type} (l : List α) (n : Nat) (h : n ≠ 0) :
    pySliceLastN l n = lastN n l := by
  simp [pySliceLastN, lastN, h]

theorem pySliceLastN_zero {α : Type} (l : List α) :
    pySliceLastN l 0 = l := by
  simp [pySliceLastN]

theorem lastN_length {α : Type} (n : Nat) (l : List α) :
    (lastN n l).length = min n l.length := by
  simp [lastN]
  omega

theorem lastN_of_length_le {α : Type} (n : Nat) (l : List α) (h : l.length ≤ n) :
    lastN n l = l := by
  simp [lastN, Nat.sub_eq_zero_of_le h]

theorem lastN_nil {α : Type} (n : Nat) : lastN n ([] : List α) = [] := by
  simp [lastN]

/-- Re-trimming after an append: only the last n elements of the prefix can
survive, so trimming the prefix first does not change the result. -/
theorem lastN_lastN_append {α : Type} (n : Nat) (xs ys : List α) :
    lastN n (lastN n xs ++ ys) = lastN n (xs ++ ys) := by
  by_cases h : xs.length ≤ n
  · rw [lastN_of_length_le n xs h]
  · simp only [lastN, List.drop_append_eq_append_drop, List.length_drop,
      List.length_append, List.drop_drop]
    have hn : n ≤ xs.length := Nat.le_of_not_le h
    congr 2 <;> omega

namespace StreamReceiver

theorem mkSamples_length (meta : StreamMeta) (now : Int) (base : Nat)
    (pairs : List (List Int × Int)) :
    (mkSamples meta now base pairs).length = pairs.length := by
  simp [mkSamples]

theorem connect_data_buffer (s : ReceiverState) (ok : Bool) :
    (connect s ok).2.data_buffer = s.data_buffer := by
  unfold connect; split <;> rfl

theorem connect_samples_received (s : ReceiverState) (ok : Bool) :
    (connect s ok).2.samples_received = s.samples_received := by
  unfold connect; split <;> rfl

theorem initReceiver_data_buffer (auto ok : Bool) :
    (initReceiver auto ok).data_buffer = [] := by
  rw [initReceiver, connect_data_buffer]

theorem initReceiver_samples_received (auto ok : Bool) :
    (initReceiver auto ok).samples_received = 0 := by
  rw [initReceiver, connect_samples_received]

/-- One pull_samples call leaves the buffer equal to the last 1000 of the
old buffer followed by the returned batch, and keeps the buffer within the
capacity. -/
theorem pull_samples_buffer_step (meta : StreamMeta) (s : ReceiverState)
    (cOk : Bool) (env : PullEnv) (now : Int)
    (h : s.data_buffer.length ≤ maxBufferSize) :
    (pull_samples meta s cOk env now).2.data_buffer =
      lastN maxBufferSize (s.data_buffer ++ (pull_samples meta s cOk env now).1) ∧
    (pull_samples meta s cOk env now).2.data_buffer.length ≤ maxBufferSize := by
  have hid : lastN maxBufferSize (s.data_buffer ++ []) = s.data_buffer := by
    rw [List.append_nil]; exact lastN_of_length_le _ _ h
  unfold pull_samples
  split
  · split
    · rw [connect_data_buffer]; exact ⟨hid.symm, h⟩
    · exact ⟨hid.symm, h⟩
  · cases env with
    | fail => exact ⟨hid.symm, h⟩
    | chunk samples timestamps =>
      simp only
      split
      · exact ⟨hid.symm, h⟩
      · simp only
        split
        · rename_i hlong
          constructor
          · rfl
          · rw [lastN_length]; omega
        · rename_i hshort
          push_neg at hshort
          exact ⟨(lastN_of_length_le _ _ hshort).symm, hshort⟩

/-- One pull_samples call raises samples_received by exactly the size of
the returned batch. -/
theorem pull_samples_received_step (meta : StreamMeta) (s : ReceiverState)
    (cOk : Bool) (env : PullEnv) (now : Int) :
    (pull_samples meta s cOk env now).2.samples_received =
      s.samples_received + (pull_samples meta s cOk env now).1.length := by
  unfold pull_samples
  split
  · split
    · rw [connect_samples_received]; rfl
    · rfl
  · cases env with
    | fail => rfl
    | chunk samples timestamps =>
      simp only
      split
      · rfl
      · simp [mkSamples_length]

theorem runPulls_buffer (meta : StreamMeta) (envs : List (Bool × PullEnv × Int)) :
    ∀ s : ReceiverState, s.data_buffer.length ≤ maxBufferSize →
      (runPulls meta s envs).data_buffer =
        lastN maxBufferSize (s.data_buffer ++ pulledSamples meta s envs) ∧
      (runPulls meta s envs).data_buffer.length ≤ maxBufferSize := by
  induction envs with
  | nil =>
      intro s h
      refine ⟨?_, h⟩
      rw [pulledSamples, List.append_nil]
      exact (lastN_of_length_le _ _ h).symm
  | cons e es ih =>
      intro s h
      obtain ⟨hstep, hlen⟩ := pull_samples_buffer_step meta s e.1 e.2.1 e.2.2 h
      obtain ⟨hrun, hrlen⟩ := ih (pull_samples meta s e.1 e.2.1 e.2.2).2 hlen
      refine ⟨?_, hrlen⟩
      rw [runPulls, pulledSamples, hrun, hstep, lastN_lastN_append,
        List.append_assoc]

theorem runPulls_received (meta : StreamMeta) (envs : List (Bool × PullEnv × Int)) :
    ∀ s : ReceiverState,
      (runPulls meta s envs).samples_received =
        s.samples_received + (pulledSamples meta s envs).length := by
  induction envs with
  | nil => intro s; rw [runPulls, pulledSamples]; rfl
  | cons e es ih =>
      intro s
      rw [runPulls, pulledSamples, ih, pull_samples_received_step,
        List.length_append]
      omega

theorem runPulls_append (meta : StreamMeta) (l₁ l₂ : List (Bool × PullEnv × Int)) :
    ∀ s : ReceiverState,
      runPulls meta s (l₁ ++ l₂) = runPulls meta (runPulls meta s l₁) l₂ := by
  induction l₁ with
  | nil => intro s; rfl
  | cons e es ih => intro s; rw [List.cons_append, runPulls, runPulls, ih]

end StreamReceiver

/-! ### Claim theorems -/

open StreamReceiver in
/-- C1: for every StreamReceiver and every sequence of pull_samples calls,
the buffer length never exceeds the fixed capacity 1000; once more than
1000 samples have been appended in total, the buffer holds exactly the
last 1000 of them in receipt order (FIFO eviction of the oldest). The
equation with lastN states the receipt-order suffix, and the min equation
covers both the bound and the exact fill. -/
theorem C1_buffer_capacity_fifo (auto ok : Bool) (meta : StreamMeta)
    (envs : List (Bool × PullEnv × Int)) :
    (runPulls meta (initReceiver auto ok) envs).data_buffer.length ≤ 1000 ∧
    (runPulls meta (initReceiver auto ok) envs).data_buffer =
      lastN 1000 (pulledSamples meta (initReceiver auto ok) envs) ∧
    (runPulls meta (initReceiver auto ok) envs).data_buffer.length =
      min 1000 (pulledSamples meta (initReceiver auto ok) envs).length := by
  obtain ⟨heq, hle⟩ := runPulls_buffer meta envs (initReceiver auto ok)
    (by rw [initReceiver_data_buffer]; exact Nat.zero_le _)
  rw [initReceiver_data_buffer, List.nil_append] at heq
  have hcap : maxBufferSize = 1000 := rfl
  rw [hcap] at heq hle
  exact ⟨hle, heq, by rw [heq, lastN_length]⟩

open StreamReceiver in
/-- C2: over any sequence of pull_samples calls that pulled K samples in
total, samples_received ends at exactly K, is non-decreasing along the
sequence, and differs from the capped buffer length as soon as K exceeds
1000. -/
theorem C2_samples_received_counter (auto ok : Bool) (meta : StreamMeta)
    (envs : List (Bool × PullEnv × Int)) :
    (runPulls meta (initReceiver auto ok) envs).samples_received =
      (pulledSamples meta (initReceiver auto ok) envs).length ∧
    (∀ pre post, envs = pre ++ post →
      (runPulls meta (initReceiver auto ok) pre).samples_received ≤
        (runPulls meta (initReceiver auto ok) envs).samples_received) ∧
    (1000 < (pulledSamples meta (initReceiver auto ok) envs).length →
      (runPulls meta (initReceiver auto ok) envs).samples_received ≠
        (runPulls meta (initReceiver auto ok) envs).data_buffer.length) := by
  have htot : (runPulls meta (initReceiver auto ok) envs).samples_received =
      (pulledSamples meta (initReceiver auto ok) envs).length := by
    rw [runPulls_received, initReceiver_samples_received, Nat.zero_add]
  refine ⟨htot, ?_, ?_⟩
  · intro pre post hsplit
    rw [hsplit, runPulls_append,
      runPulls_received meta post (runPulls meta (initReceiver auto ok) pre)]
    exact Nat.le_add_right _ _
  · intro hbig
    obtain ⟨-, hle⟩ := runPulls_buffer meta envs (initReceiver auto ok)
      (by rw [initReceiver_data_buffer]; exact Nat.zero_le _)
    have hcap : maxBufferSize = 1000 := rfl
    rw [hcap] at hle
    omega

open StreamReceiver in
/-- Witness for C2 at a concrete run delivering 1001 samples in one call:
the hypotheses of the monotonicity and inequality conjuncts are discharged
at pre = [], post = bigEnvs and at the evaluated pull count 1001. -/
theorem C2_samples_received_counter_witness :
    (1000 < (pulledSamples meta0 (initReceiver true true) bigEnvs).length) ∧
    (runPulls meta0 (initReceiver true true) []).samples_received ≤
      (runPulls meta0 (initReceiver true true) bigEnvs).samples_received ∧
    (runPulls meta0 (initReceiver true true) bigEnvs).samples_received ≠
      (runPulls meta0 (initReceiver true true) bigEnvs).data_buffer.length := by
  have hbig : 1000 < (pulledSamples meta0 (initReceiver true true) bigEnvs).length := by
    have h1 : pulledSamples meta0 (initReceiver true true) bigEnvs =
        mkSamples meta0 0 0
          ((List.replicate 1001 ([] : List Int)).zip (List.replicate 1001 (0 : Int))) := by
      rw [bigEnvs, pulledSamples, pulledSamples, List.append_nil]
      rfl
    rw [h1, mkSamples_length, List.length_zip, List.length_replicate,
      List.length_replicate]
    omega
  refine ⟨hbig, ?_, ?_⟩
  · exact (C2_samples_received_counter true true meta0 bigEnvs).2.1 [] bigEnvs rfl
  · exact (C2_samples_received_counter true true meta0 bigEnvs).2.2 hbig

open StreamReceiver in
/-- C3 counterexample: a disconnected receiver with auto_reconnect on and
no recorded errors, whose reconnect succeeds and whose inlet has a sample
ready, still gets back an empty batch from the very call that reconnected:
pull_samples returns [] from the disconnected branch even though the state
it leaves behind is connected. The claim that the same call goes on to
pull newly available samples is therefore false. -/
theorem C3_reconnect_same_call_counterexample :
    (pull_samples meta0 discReceiver true (PullEnv.chunk [[1]] [5]) 7).1 = [] ∧
    (pull_samples meta0 discReceiver true (PullEnv.chunk [[1]] [5]) 7).2.connected = true := by
  exact ⟨rfl, rfl⟩

open StreamReceiver in
/-- C3 amended: when a disconnected receiver is asked to pull, then if
auto_reconnect is enabled and the error counter is below 5 the call
attempts exactly one reconnect and returns an empty result either way
(newly available samples are only returned by later calls); otherwise it
returns an empty result immediately without any reconnect attempt. -/
theorem C3_disconnected_pull_amended (meta : StreamMeta) (s : ReceiverState)
    (cOk : Bool) (env : PullEnv) (now : Int)
    (h : s.connected = false ∨ s.hasInlet = false) :
    pull_samples meta s cOk env now =
      if s.auto_reconnect = true ∧ s.connection_errors < 5 then
        ([], (connect s cOk).2)
      else ([], s) := by
  unfold pull_samples
  rcases h with h | h <;> simp [h]

open StreamReceiver in
/-- Witness for C3 amended at the concrete disconnected receiver: the
disconnection hypothesis is discharged on the connected flag. -/
theorem C3_disconnected_pull_amended_witness :
    (discReceiver.connected = false ∨ discReceiver.hasInlet = false) ∧
    pull_samples meta0 discReceiver false PullEnv.fail 0 =
      (if discReceiver.auto_reconnect = true ∧ discReceiver.connection_errors < 5 then
        ([], (connect discReceiver false).2)
      else ([], discReceiver)) :=
  ⟨Or.inl rfl,
   C3_disconnected_pull_amended meta0 discReceiver false PullEnv.fail 0 (Or.inl rfl)⟩

open StreamReceiver in
/-- C7: connect never raises (it is a total function into Bool × state); a
failing connect returns false, marks the receiver disconnected and bumps
the error counter by exactly one, leaving the other statistics alone; a
succeeding connect returns true, marks it connected and zeroes the error
counter. -/
theorem C7_connect_failure_contract (s : ReceiverState) :
    (connect s false).1 = false ∧
    (connect s false).2.connected = false ∧
    (connect s false).2.connection_errors = s.connection_errors + 1 ∧
    (connect s false).2.samples_received = s.samples_received ∧
    (connect s false).2.data_buffer = s.data_buffer ∧
    (connect s true).1 = true ∧
    (connect s true).2.connected = true ∧
    (connect s true).2.connection_errors = 0 :=
  ⟨rfl, rfl, rfl, rfl, rfl, rfl, rfl, rfl⟩

/-- C9: with n_samples = 0 both read paths return the whole buffered list
(the Python slice [-0:] is [0:]); with n greater or equal to 1 they return
exactly the last min(n, length) samples. -/
theorem C9_slice_minus_zero (s : ReceiverState)
    (latest : List (String × List Sample)) (nm : String) (d : List Sample)
    (n : Nat) (hn : 1 ≤ n) (hd : latest.lookup nm = some d) :
    StreamReceiver.get_latest_data s 0 = s.data_buffer ∧
    StreamReceiver.get_latest_data s n = lastN n s.data_buffer ∧
    (StreamReceiver.get_latest_data s n).length = min n s.data_buffer.length ∧
    StreamManager.get_latest_data latest (some nm) 0 = [(nm, d)] ∧
    StreamManager.get_latest_data latest (some nm) n = [(nm, lastN n d)] ∧
    StreamManager.get_latest_data latest none 0 = latest ∧
    StreamManager.get_latest_data latest none n =
      latest.map (fun p => (p.1, lastN n p.2)) := by
  have hn0 : n ≠ 0 := by omega
  refine ⟨?_, ?_, ?_, ?_, ?_, ?_, ?_⟩
  · unfold StreamReceiver.get_latest_data
    split
    · rename_i he
      rw [List.isEmpty_iff] at he
      exact he.symm
    · exact pySliceLastN_zero _
  · unfold StreamReceiver.get_latest_data
    split
    · rename_i he
      rw [List.isEmpty_iff] at he
      rw [he, lastN_nil]
    · exact pySliceLastN_pos _ _ hn0
  · unfold StreamReceiver.get_latest_data
    split
    · rename_i he
      rw [List.isEmpty_iff] at he
      simp [he]
    · rw [pySliceLastN_pos _ _ hn0, lastN_length]
  · simp [StreamManager.get_latest_data, hd, pySliceLastN_zero]
  · simp [StreamManager.get_latest_data, hd, pySliceLastN_pos _ _ hn0]
  · simp [StreamManager.get_latest_data, pySliceLastN_zero]
  · simp [StreamManager.get_latest_data, pySliceLastN_pos _ _ hn0]

/-- Witness for C9 at n = 2 on a two-sample buffer and a one-entry
aggregate map. -/
theorem C9_slice_minus_zero_witness :
    (1 ≤ 2) ∧
    ([("EEG", [demoSample 1])].lookup "EEG" = some [demoSample 1]) ∧
    StreamReceiver.get_latest_data demoReceiver 0 = demoReceiver.data_buffer ∧
    StreamReceiver.get_latest_data demoReceiver 2 = lastN 2 demoReceiver.data_buffer := by
  have h := C9_slice_minus_zero demoReceiver [("EEG", [demoSample 1])] "EEG"
    [demoSample 1] 2 (by omega) (by rfl)
  exact ⟨by omega, by rfl, h.1, h.2.1⟩

open StreamManager in
/-- C6: start and stop are idempotent. From an idle manager whose first
start succeeds, a second start returns success with the state unchanged
(in particular no further worker is spawned), the first start spawned
exactly one worker, and stopping twice equals stopping once. -/
theorem C6_lifecycle_idempotent (m : ManagerState)
    (d₁ d₂ : List (String × ReceiverState)) (L₁ A₁ L₂ A₂ : Bool)
    (h0 : m.running = false)
    (h1 : (start_receiving m d₁ L₁ A₁).1 = true) :
    start_receiving (start_receiving m d₁ L₁ A₁).2 d₂ L₂ A₂ =
      (true, (start_receiving m d₁ L₁ A₁).2) ∧
    (start_receiving m d₁ L₁ A₁).2.workers_spawned = m.workers_spawned + 1 ∧
    stop_receiving (stop_receiving m) = stop_receiving m := by
  have hstop : stop_receiving (stop_receiving m) = stop_receiving m := by
    by_cases hr : m.running <;> simp [stop_receiving, hr]
  unfold start_receiving at h1 ⊢
  by_cases hse : m.streams.isEmpty <;> by_cases hd : d₁.isEmpty <;>
    simp_all [h0]

open StreamManager in
/-- Witness for C6: a concrete idle manager owning one connected stream;
the idleness and first-start-success hypotheses are discharged by
evaluation. -/
theorem C6_lifecycle_idempotent_witness :
    demoManager.running = false ∧
    (start_receiving demoManager [] false false).1 = true ∧
    start_receiving (start_receiving demoManager [] false false).2 [] false false =
      (true, (start_receiving demoManager [] false false).2) ∧
    stop_receiving (stop_receiving demoManager) = stop_receiving demoManager := by
  have h := C6_lifecycle_idempotent demoManager [] [] false false false false rfl
    (by rfl)
  exact ⟨rfl, by rfl, h.1, h.2.2⟩

/-- C4: a disconnected source is scored exactly 0 and classified critical,
with the early return skipping every other check, whatever the rest of the
snapshot says. -/
theorem C4_disconnected_hard_zero (cfg : QAConfig) (info : HealthInfo) (now : ℚ)
    (h : info.connected = false) :
    QualityAssessor.assess_single_stream cfg info now =
      { status := .critical, score := 0, issues := [.notConnected], metrics := {} } := by
  unfold QualityAssessor.assess_single_stream
  simp [h]

/-- Witness for C4 at a snapshot that is disconnected yet has a high rate,
many samples, fresh data and no errors: all of it is ignored. -/
theorem C4_disconnected_hard_zero_witness :
    deadInfo.connected = false ∧
    QualityAssessor.assess_single_stream cfg0 deadInfo 100 =
      { status := .critical, score := 0, issues := [.notConnected], metrics := {} } :=
  ⟨rfl, C4_disconnected_hard_zero cfg0 deadInfo 100 rfl⟩

theorem statusJoin_good (a : Status) : statusJoin Status.good a = a := by
  cases a <;> rfl

/-- Folding statusJoin from the left associates with joining the worst of
the tail on the right. -/
theorem statusJoin_left (a s w : Status) :
    statusJoin (statusJoin a s) w = statusJoin a (statusJoin w s) := by
  cases a <;> cases s <;> cases w <;> decide

theorem worstStatus_eq_critical_iff (l : List Status) :
    worstStatus l = Status.critical ↔ Status.critical ∈ l := by
  unfold worstStatus
  split_ifs with h1 h2 <;> simp_all

theorem worstStatus_cons (s : Status) (l : List Status) :
    worstStatus (s :: l) = statusJoin (worstStatus l) s := by
  cases s with
  | critical => simp [worstStatus, statusJoin]
  | warning =>
      by_cases hc : Status.critical ∈ l
      · simp [worstStatus, statusJoin, hc,
          (worstStatus_eq_critical_iff l).2 hc]
      · by_cases hwl : Status.warning ∈ l <;>
          simp [worstStatus, statusJoin, hc, hwl]
  | good =>
      have hgc : (Status.critical ∈ Status.good :: l) ↔ Status.critical ∈ l := by
        simp
      have hgw : (Status.warning ∈ Status.good :: l) ↔ Status.warning ∈ l := by
        simp
      simp only [statusJoin, worstStatus, hgc, hgw]

theorem foldl_statusJoin_eq_worst (l : List Status) :
    ∀ a : Status, l.foldl statusJoin a = statusJoin a (worstStatus l) := by
  induction l with
  | nil => intro a; cases a <;> rfl
  | cons s t ih =>
      intro a
      rw [List.foldl_cons, ih (statusJoin a s), worstStatus_cons,
        statusJoin_left]

open QualityAssessor in
/-- The overall status carried through the aggregation fold of
assess_quality evolves exactly by statusJoin with each per-stream status. -/
theorem assessStep_overall (cfg : QAConfig) (now : ℚ) (acc : Report × ℚ × Nat)
    (p : String × HealthInfo) :
    (assessStep cfg now acc p).1.overall_quality =
      statusJoin acc.1.overall_quality (assess_single_stream cfg p.2 now).status := by
  unfold assessStep
  cases hq : (assess_single_stream cfg p.2 now).status <;>
    by_cases hacc : acc.1.overall_quality = Status.critical <;>
      simp [hq, hacc, statusJoin]

open QualityAssessor in
theorem foldl_assessStep_overall (cfg : QAConfig) (now : ℚ)
    (l : List (String × HealthInfo)) :
    ∀ acc : Report × ℚ × Nat,
      ((l.foldl (assessStep cfg now) acc).1).overall_quality =
        l.foldl (fun a p => statusJoin a (assess_single_stream cfg p.2 now).status)
          acc.1.overall_quality := by
  induction l with
  | nil => intro acc; rfl
  | cons p t ih =>
      intro acc
      rw [List.foldl_cons, List.foldl_cons, ih, assessStep_overall]

/-- C5: the overall_quality of a report over a non-empty snapshot is the
worst per-stream status: critical if any stream is critical, else warning
if any stream is warning, else good. -/
theorem C5_overall_is_worst (cfg : QAConfig) (infos : List (String × HealthInfo))
    (now : ℚ) (_h : infos ≠ []) :
    (QualityAssessor.assess_quality cfg infos now).overall_quality =
      worstStatus (infos.map fun p =>
        (QualityAssessor.assess_single_stream cfg p.2 now).status) := by
  unfold QualityAssessor.assess_quality
  have hover :
      ∀ acc : Report × ℚ × Nat,
        (if 0 < acc.2.2 then { acc.1 with overall_score := some (acc.2.1 / (acc.2.2 : ℚ)) }
         else acc.1).overall_quality = acc.1.overall_quality := by
    intro acc; split <;> rfl
  rw [hover, foldl_assessStep_overall, ← List.foldl_map
    (fun p : String × HealthInfo => (QualityAssessor.assess_single_stream cfg p.2 now).status)
    statusJoin, foldl_statusJoin_eq_worst, statusJoin_good]

/-- Witness for C5 on a one-stream snapshot whose stream is disconnected:
the snapshot is non-empty and the overall status equals the worst (here
critical). -/
theorem C5_overall_is_worst_witness :
    ([("EEG", deadInfo)] ≠ ([] : List (String × HealthInfo))) ∧
    (QualityAssessor.assess_quality cfg0 [("EEG", deadInfo)] 100).overall_quality =
      worstStatus ([("EEG", deadInfo)].map fun p =>
        (QualityAssessor.assess_single_stream cfg0 p.2 100).status) :=
  ⟨by simp, C5_overall_is_worst cfg0 [("EEG", deadInfo)] 100 (by simp)⟩

/-- C10: on the empty snapshot assess_quality reports overall good, an
empty per-stream map, an empty issues list, and omits overall_score (the
none field models the absent dict key). -/
theorem C10_empty_snapshot_report (cfg : QAConfig) (now : ℚ) :
    QualityAssessor.assess_quality cfg [] now =
      { timestamp := now, streams := [], overall_quality := .good,
        issues := [], overall_score := none } := rfl

namespace AggregateBuffer

theorem bufInv_initSys : bufInv initSys := rfl

/-- Every writer micro-step preserves the buffer invariant. -/
theorem bufInv_step {s t : BufSys} (h : bufInv s) (hst : BStep s t) : bufInv t := by
  cases hst with
  | acquire batch hp =>
      simp only [bufInv, hp] at h
      simp only [bufInv]
      exact h
  | extend hp =>
      simp only [bufInv, hp] at h
      simp only [bufInv]
      rw [h]
  | trim hp =>
      simp only [bufInv, hp] at h
      simp only [bufInv]
      rw [h]
      rfl
  | release hp =>
      simp only [bufInv, hp] at h
      simp only [bufInv]
      rw [h, List.foldl_append, List.foldl_cons, List.foldl_nil]

theorem reach_bufInv (s : BufSys) (h : Reach s) : bufInv s := by
  induction h with
  | init => exact bufInv_initSys
  | step hr hst ih => exact bufInv_step ih hst

end AggregateBuffer

open AggregateBuffer in
/-- C8: a reader of the shared aggregate buffer can only run while the
ingestion worker is outside its lock-protected critical section, and every
value it then receives is the slice of a buffer built from whole committed
batches, so a batch is either fully visible or not yet visible; the value
is a fresh list, never a live reference into the writer's state. -/
theorem C8_reader_never_sees_partial_batch (s : BufSys) (n : Nat)
    (v : List Sample) (hr : Reach s) (hobs : readerObserve s n = some v) :
    v = pySliceLastN (s.applied.foldl applyBatch []) n := by
  unfold readerObserve at hobs
  split at hobs
  · rename_i hidle
    have hinv := reach_bufInv s hr
    simp only [bufInv, hidle] at hinv
    rw [← hinv]
    exact (Option.some_injective _ hobs).symm
  · exact absurd hobs (by simp)

open AggregateBuffer in
/-- Witness for C8 at the state reached by one full critical section
(acquire, extend, trim, release of the batch [demoSample 1]): the
reachability and observation hypotheses are discharged concretely. -/
theorem C8_reader_never_sees_partial_batch_witness :
    readerObserve sysAfterOne 10 = some [demoSample 1] ∧
    [demoSample 1] = pySliceLastN (sysAfterOne.applied.foldl applyBatch []) 10 := by
  have hreach : Reach sysAfterOne := by
    refine Reach.step (Reach.step (Reach.step (Reach.step Reach.init
      (BStep.acquire initSys [demoSample 1] rfl)) (BStep.extend _ rfl))
      (BStep.trim _ rfl)) ?_
    exact BStep.release _ rfl
  refine ⟨rfl, ?_⟩
  exact C8_reader_never_sees_partial_batch sysAfterOne 10 [demoSample 1] hreach rfl
